import Mathlib

/-!
Verification of the AEO audit pipeline (internetangels/aeo-audit-tool).

The audit pipeline of `aeo_logic.py` is embedded shallowly: numbers that the
Python code handles as floats are modelled as exact rationals (`ℚ`), Python's
ordered `dict` results as association lists, and the emoji verdict icons as the
very strings the code uses.  The HTTP fetching and BeautifulSoup parsing layers
are external collaborators: their outputs (page text, table shapes, link-scan
results) enter the embedding as the `Soup` and `Signals` input values, exactly
the data `run_audit` extracts from them at lines 112-136 of `aeo_logic.py`.
The second pipeline revision (`src/unnamed/part_000`, "aeo_logic (4).py") is
embedded where claims cite it: its `_overall_score` and its dual-mode baseline
catalogue `run_audit` (here `run_audit_v3`).
-/

namespace AeoAudit

/-! ## Python primitives -/

/-- Python's builtin `round` to an integer: nearest integer, ties to even. -/
def pyRound (q : ℚ) : ℤ :=
  if q - ⌊q⌋ < 1/2 then ⌊q⌋
  else if 1/2 < q - ⌊q⌋ then ⌊q⌋ + 1
  else if ⌊q⌋ % 2 = 0 then ⌊q⌋ else ⌊q⌋ + 1

/-- Python's `round(x, 1)`: round to one decimal place. -/
def round1 (q : ℚ) : ℚ := (pyRound (10 * q) : ℚ) / 10

/-- Python's `s[:n]` slice of a string. -/
def pyTake (n : ℕ) (s : String) : String := String.mk (s.toList.take n)

/-- Python's `str.lower()` (modelled characterwise). -/
def lowerStr (s : String) : String := String.mk (s.toList.map Char.toLower)

/-- Python's `str.count(c)` for a single-character needle. -/
def countChar (s : String) (c : Char) : ℕ :=
  (s.toList.filter (fun d => d == c)).length

/-- A character matched by the regex class `\w` (ASCII range). -/
def isWordChar (c : Char) : Bool := c.isAlphanum || c == '_'

/-- A character matched by the regex class `[aeiouyAEIOUY]`. -/
def isVowel (c : Char) : Bool :=
  ['a', 'e', 'i', 'o', 'u', 'y', 'A', 'E', 'I', 'O', 'U', 'Y'].contains c

/-- Number of maximal runs of characters satisfying `p` that start in `l`,
given whether the previous character satisfied `p`. -/
def countRunStartsAux (p : Char → Bool) : Bool → List Char → ℕ
  | _, [] => 0
  | prev, c :: cs => (if p c && !prev then 1 else 0) + countRunStartsAux p (p c) cs

/-- Number of maximal runs of characters satisfying `p`: the value of
`len(re.findall(r"X+", text))` for a character class `X`. -/
def countRuns (p : Char → Bool) (l : List Char) : ℕ := countRunStartsAux p false l

/-- Maximal runs of word characters, accumulator-style helper. -/
def wordsAux : List Char → List Char → List (List Char)
  | [], acc => if acc.isEmpty then [] else [acc.reverse]
  | c :: cs, acc =>
    if isWordChar c then wordsAux cs (c :: acc)
    else if acc.isEmpty then wordsAux cs []
    else acc.reverse :: wordsAux cs []

/-- The word tokens of a string: the matches of `\b\w+\b` (maximal runs of
word characters).  A pattern `\bX\b` whose body `X` is made of word
characters matches exactly when `X` is one of these tokens. -/
def wordsOf (s : String) : List String := (wordsAux s.toList []).map String.mk

/-- Does `pat` start `hay`? -/
def listStartsWith : List Char → List Char → Bool
  | _, [] => true
  | [], _ :: _ => false
  | c :: cs, d :: ds => c == d && listStartsWith cs ds

/-- Does `pat` occur contiguously in `hay`?  Python's `pat in hay`. -/
def listContains : List Char → List Char → Bool
  | [], pat => pat.isEmpty
  | c :: cs, pat => listStartsWith (c :: cs) pat || listContains cs pat

/-- Python's substring test `pat in hay` on strings. -/
def strContains (hay pat : String) : Bool := listContains hay.toList pat.toList

/-- Occurrences of the two given tokens adjacently in a token list (used for
the two-word regex alternatives such as `starting at` and `the company`). -/
def countAdjacentPair (x y : String) : List String → ℕ
  | [] => 0
  | [_] => 0
  | a :: b :: rest => (if a = x ∧ b = y then 1 else 0) + countAdjacentPair x y (b :: rest)

/-! ## Helpers: fetching and parsing boundary (`aeo_logic.py` lines 18-76) -/

/-- `_norm_url` (aeo_logic.py lines 18-23); `str.startswith` is modelled on the
character list. -/
def _norm_url (url : String) : String :=
  if url = "" then ""
  else if !(listStartsWith url.toList "http://".toList ||
      listStartsWith url.toList "https://".toList) then "https://" ++ url
  else url

/-- One `<a href=...>` anchor of a page, as `soup.find_all("a", href=True)`
exposes it to `_find_link_like`: its href attribute and its text. -/
structure Anchor where
  href : String
  text : String
deriving DecidableEq

/-- Python's `str.strip()`: whitespace removed at both ends. -/
def pyStrip (s : String) : String :=
  String.mk (((s.toList.dropWhile Char.isWhitespace).reverse.dropWhile Char.isWhitespace).reverse)

/-- `_find_link_like` (aeo_logic.py lines 37-43): the href of the first anchor
whose stripped, lowercased text contains any of the labels. -/
def _find_link_like (anchors : List Anchor) (labels : List String) : Option String :=
  match anchors with
  | [] => none
  | a :: rest =>
    if labels.any (fun lbl => strContains (lowerStr (pyStrip a.text)) lbl) then some a.href
    else _find_link_like rest labels

/-- The netloc `urllib.parse.urlsplit` extracts: the text after a leading "//"
(directly, or after "scheme:"), up to the next "/", "?" or "#"; empty when the
URL has no authority part. -/
def takeNetloc (l : List Char) : List Char :=
  l.takeWhile (fun c => !(c == '/' || c == '?' || c == '#'))

/-- The remainder of a character list after the first occurrence of `pat`. -/
def afterFirst (pat : List Char) : List Char → List Char
  | [] => []
  | c :: cs => if listStartsWith (c :: cs) pat then (c :: cs).drop pat.length else afterFirst pat cs

/-- The netloc of a URL string (see `takeNetloc`). -/
def netlocOf (s : String) : String :=
  if listStartsWith s.toList ['/', '/'] then String.mk (takeNetloc (s.toList.drop 2))
  else if listContains s.toList [':', '/', '/'] then
    String.mk (takeNetloc (afterFirst [':', '/', '/'] s.toList))
  else ""

/-- CPython's 'Invalid IPv6 URL' condition in `urlsplit`: the netloc contains
'[' without ']', or ']' without '['. -/
def bracketsBad (netloc : String) : Bool :=
  (netloc.toList.contains '[' && !netloc.toList.contains ']') ||
  (netloc.toList.contains ']' && !netloc.toList.contains '[')

/-- The `urllib.parse.urljoin` collaborator called at aeo_logic.py line 100,
modelled on CPython's raising behaviour: `urljoin` urlsplits both arguments,
and `urlsplit` raises ValueError('Invalid IPv6 URL') when a netloc's square
brackets are unbalanced.  No other failure mode is modelled; the joined value
only feeds the next fetch, so the non-raising case returns a naive join. -/
def cpythonUrljoin (base rel : String) : Except String String :=
  if bracketsBad (netlocOf base) || bracketsBad (netlocOf rel) then
    Except.error "Invalid IPv6 URL"
  else Except.ok (base ++ rel)

/-- The queryable view of a parsed page that `_has_table_compare` consumes from
the BeautifulSoup collaborator: for every `<tr>` of every `<table>`, the number
of its `td`/`th` cells; and the page's `get_text(" ", strip=True)` text. -/
structure Soup where
  tables : List (List ℕ)
  text : String
deriving DecidableEq

/-- `_grade_level` (aeo_logic.py lines 45-54): the tiny Flesch-Kincaid grade
approximation.  `sentences = max(1, #"." + #"!" + #"?")`,
`words = max(1, len(findall(r"\b\w+\b")))`,
`syll = max(1, len(findall(r"[aeiouyAEIOUY]+")))`,
result `round(0.39*(words/sentences) + 11.8*(syll/words) - 15.59, 1)`. -/
def _grade_level (text : String) : ℚ :=
  let sentences : ℕ := max 1 (countChar text '.' + countChar text '!' + countChar text '?')
  let words : ℕ := max 1 (countRuns isWordChar text.toList)
  let syll : ℕ := max 1 (countRuns isVowel text.toList)
  round1 (39/100 * ((words : ℚ) / sentences) + 118/10 * ((syll : ℚ) / words) - 1559/100)

/-- `_has_table_compare` (aeo_logic.py lines 56-69): any table row with at
least 4 `td`/`th` cells, or else page text containing `compare` together with
one of `vs`, `pros`, `cons`. -/
def _has_table_compare (soup : Soup) : Bool :=
  if soup.tables.any (fun rows => rows.any (fun cols => decide (4 ≤ cols))) then true
  else
    let txt := lowerStr soup.text
    if strContains txt "compare" && (strContains txt "vs" || strContains txt "pros" || strContains txt "cons") then
      true
    else false

/-! ## Core signals (`aeo_logic.py` lines 111-136) -/

/-- The first-person markers of the tone regex at line 114. -/
def FIRST_PERSON_MARKERS : List String := ["we", "our", "i", "my", "us"]

/-- Line 114: `bool(re.search(r"\b(we|our|i|my|us)\b", page_text.lower()))`. -/
def tone_first_person (page_text : String) : Bool :=
  (wordsOf (lowerStr page_text)).any (fun w => FIRST_PERSON_MARKERS.contains w)

/-- Line 132's regex part: `re.search(r"\b(pricing|prices|from|starting at)\b",
page_text.lower())`; the two-word alternative is modelled as token adjacency. -/
def hasPricingSignal (page_text : String) : Bool :=
  let ws := wordsOf (lowerStr page_text)
  ws.contains "pricing" || ws.contains "prices" || ws.contains "from" ||
    decide (0 < countAdjacentPair "starting" "at" ws)

/-- The live signals `run_audit` derives from the fetched pages at lines
111-136.  The home and compare pages enter as parsed `Soup` values so that the
claim-relevant extractors (`_grade_level`, the tone regex, and
`_has_table_compare`) run inside the embedding; the remaining link- and
count-scans over the auxiliary pages (`faq_qs` lines 115-118, `testi_hits`
line 120, `sic` lines 124-129, the pricing-page text truthiness at line 132,
and the viewport check at line 135) enter as their scanned outcomes, at the
parsing-collaborator boundary. -/
structure Signals where
  home : Soup
  compare : Soup
  faq_qs : ℕ
  testi_hits : ℕ
  sic : Bool
  pricing_page_nonempty : Bool
  viewport_ok : Bool
deriving DecidableEq

/-! ## Findings (`aeo_logic.py` lines 138-277) -/

/-- One category's finding tuple `(icon, result, recommendation, why, how,
quick_win)`. -/
structure Finding where
  icon : String
  result : String
  recommendation : String
  why : String
  how : String
  quick_win : String
deriving DecidableEq

/-- Home Page Readability (lines 141-156).  The grade interpolated into the
result text is rendered with `toString`. -/
def readabilityFinding (gl : ℚ) : Finding :=
  if gl ≤ 8 then
    ⟨"🟢", "Readable (Grade ~" ++ toString gl ++ ")", "Keep copy concise.",
     "Easier reading increases chance of being quoted in AI answers.",
     "Maintain short sentences, bullets for benefits, and scannable sections.",
     ""⟩
  else if gl ≤ 11 then
    ⟨"🟡", "Moderate (Grade ~" ++ toString gl ++ ")", "Tighten copy; shorten sentences.",
     "AI models prefer succinct, plain-language answers.",
     "Rewrite hero + first section to be punchier; convert big paragraphs to bullets.",
     "Rewrite hero and top section"⟩
  else
    ⟨"🔴", "Complex (Grade ~" ++ toString gl ++ ")", "Simplify to about 7th grade.",
     "Complex text is less likely to be quoted in AI results.",
     "Shorten sentences; replace jargon; add bullets to distill benefits.",
     "Rewrite hero and top 2 sections"⟩

/-- AI Tone of Voice (lines 158-168). -/
def toneFinding (tfp : Bool) : Finding :=
  if tfp then
    ⟨"🟡", "First-person heavy", "Rewrite to third-person expert.",
     "An objective, expert voice is more quotable for AI recommendations.",
     "Rewrite About/Services to third-person; reduce 'we/our' and show proof.",
     "Rewrite About and Services first"⟩
  else
    ⟨"🟢", "Objective tone detected", "Maintain neutral, expert tone.",
     "Objective tone helps AI include your content.",
     "Keep first-person limited; lean on testimonials and case studies.",
     ""⟩

/-- Service-in-City Pages (lines 170-180). -/
def sicFinding (sic : Bool) : Finding :=
  if sic then
    ⟨"🟢", "Dedicated local pages present", "Expand coverage.",
     "Service+City pages target high-intent local queries AI uses.",
     "Add more suburbs; 2 short paras + local testimonial + LocalBusiness schema.",
     ""⟩
  else
    ⟨"🔴", "Missing dedicated pages", "Create location pages (e.g., 'Mechanic in Upwey').",
     "Precise service+location pages feed AI with local answers.",
     "Draft at least 3 suburb pages; add LocalBusiness + FAQ schema.",
     "Draft 3 suburb pages and link in footer"⟩

/-- FAQ Depth (lines 182-197). -/
def faqFinding (faq_qs : ℕ) : Finding :=
  if 5 ≤ faq_qs then
    ⟨"🟢", toString faq_qs ++ " Q&As found", "Keep FAQs fresh.",
     "FAQs directly fuel AI answers; structured Q/A is gold.",
     "Add new Q/A monthly; implement FAQPage schema.",
     ""⟩
  else if 1 ≤ faq_qs then
    ⟨"🟡", toString faq_qs ++ " Q&As found", "Add 5–10 buyer FAQs.",
     "Depth matters; concise Q/A improves odds of being quoted.",
     "Create 5–10 buyer-intent questions with plain-language answers.",
     "Publish 5 FAQs this week"⟩
  else
    ⟨"🔴", "No proper FAQs", "Add 5–10 buyer FAQs.",
     "AI relies on concise Q/A for direct answers.",
     "Write short Q/A; add FAQPage schema; link from nav/footer.",
     "Publish 5 FAQs this week"⟩

/-- Testimonials & Case Studies (lines 199-214). -/
def testiFinding (testi_hits : ℕ) : Finding :=
  if 5 ≤ testi_hits then
    ⟨"🟢", "Strong", "Keep fresh and detailed.",
     "Social proof boosts inclusion and conversions.",
     "Add a case study quarterly; rotate new quotes.",
     ""⟩
  else if 1 ≤ testi_hits then
    ⟨"🟡", "Some quotes", "Add more plus 1–2 case studies.",
     "Proof of outcomes increases trust signals.",
     "Gather 6–10 quotes; write one before/after story.",
     "Request quotes from last 10 clients"⟩
  else
    ⟨"🔴", "Not found", "Collect quotes and write 1 case study.",
     "Without proof, AI is less likely to recommend you.",
     "Ask recent customers; publish a case study with metrics.",
     "Request quotes from last 10 clients"⟩

/-- Comparison Table (lines 216-226). -/
def compareFinding (has_compare : Bool) : Finding :=
  if has_compare then
    ⟨"🟢", "Present", "Keep updated and honest.",
     "Comparison pages help AI answer 'best/which' queries.",
     "Include pricing, features, and proof; update quarterly.",
     ""⟩
  else
    ⟨"🔴", "Not found", "Add You vs 3 competitors table.",
     "Structured compare content feeds AI ranking logic.",
     "Create /compare with 4 columns and 5–7 rows; honest but favourable.",
     "Publish /compare with 5 key rows"⟩

/-- Pricing Transparency (lines 228-238). -/
def pricingFinding (has_pricing : Bool) : Finding :=
  if has_pricing then
    ⟨"🟡", "Some pricing signals", "Clarify ranges or 'from' pricing.",
     "Price cues help AI route high-intent users; reduces friction.",
     "Add ranges or 'from' prices; link to pricing explainer.",
     "Add a 3-tier pricing block"⟩
  else
    ⟨"🔴", "Contact us only", "Add 'from' pricing or typical ranges.",
     "Absent pricing lowers inclusion and conversion.",
     "Publish ranges; explain inclusions/exclusions.",
     "Add a 3-tier pricing block"⟩

/-- Local & Directory Profiles (lines 240-245): unconditional default. -/
def localDirFinding : Finding :=
  ⟨"🟡", "Partially completed profiles",
   "Complete Google Business Profile, Bing Places, Yellow Pages AU; keep NAP consistent.",
   "Consistent citations strengthen entity understanding for AI/maps.",
   "Verify profiles; add categories, services, photos, hours.",
   "Verify GBP and add 5 photos"⟩

/-- Reviews Quantity & Rating (lines 247-251): unconditional default. -/
def reviewsFinding : Finding :=
  ⟨"🟡", "Low review volume", "Increase Google/Yelp AU (and ProductReview.com.au).",
   "Review volume and recency heavily influence AI recommendations.",
   "Automate review requests by SMS/email; add Review schema.",
   "Send review request to last 20 customers"⟩

/-- Press / Best Of Mentions (lines 253-257): unconditional default. -/
def pressFinding : Finding :=
  ⟨"🔴", "No third-party mentions", "Pitch inclusion in local 'Best Of' lists; issue a press release.",
   "Third-party mentions validate authority; AI tools lean on them.",
   "Pitch bloggers/journalists; publish Best of [Category] in [City].",
   "Write a press release about a win"⟩

/-- Technical Markup (Schema) (lines 259-263): unconditional default. -/
def schemaFinding : Finding :=
  ⟨"🟡", "Partial schema present", "Add/validate LocalBusiness, FAQPage, Review schema.",
   "Structured data helps AI understand entities, services, proof.",
   "Use JSON-LD; test in Rich Results and Schema validators; add sameAs.",
   "Add FAQPage schema to top page"⟩

/-- Mobile UX & Speed (lines 265-275). -/
def mobileFinding (mobile_pass : Bool) : Finding :=
  if mobile_pass then
    ⟨"🟢", "Passable mobile UX", "Tidy tap targets; keep CLS/LCP in check.",
     "Most AI-driven searches happen on mobile; poor UX kills conversions.",
     "Compress images; ensure click-to-call is one tap.",
     "Compress hero images; verify LCP < 2.5s"⟩
  else
    ⟨"🟡", "Unknown", "Ensure responsive meta + image compression.",
     "Mobile issues lower conversion even if AI sends traffic.",
     "Add viewport meta; compress images; lazy-load below the fold.",
     "Compress hero images; verify LCP < 2.5s"⟩

/-- The twelve audit categories of the baseline catalogue, in the order the
findings map of `run_audit` (aeo_logic.py lines 139-275) constructs them. -/
def baselineCategories : List String :=
  ["Home Page Readability", "AI Tone of Voice", "Service-in-City Pages", "FAQ Depth",
   "Testimonials & Case Studies", "Comparison Table", "Pricing Transparency",
   "Local & Directory Profiles", "Reviews Quantity & Rating", "Press / Best Of Mentions",
   "Technical Markup (Schema)", "Mobile UX & Speed"]

/-- The signal-and-findings phase of `run_audit` (aeo_logic.py lines 111-277):
given the fetched pages' extractor-level content `sig` (see `Signals`), compute
the live signals of lines 112-136 and assemble the ordered findings map of
lines 139-275.  The `local_mode` parameter of the source is never read in its
body, and `url` only feeds the fetching collaborator (via `_norm_url`,
line 85).  The preceding page-discovery phase of lines 85-109 — which can
raise through the unguarded `urljoin` at line 100 — is modelled by
`run_audit_fetch` below. -/
def run_audit (url : String) (local_mode : Bool) (sig : Signals) : List (String × Finding) :=
  let _url := _norm_url url
  let page_text := pyTake 5000 sig.home.text
  let gl := _grade_level page_text
  let tfp := tone_first_person page_text
  let has_compare := _has_table_compare (if sig.compare.text = "" then sig.home else sig.compare)
  let has_pricing := sig.pricing_page_nonempty || hasPricingSignal page_text
  let mobile_pass := sig.viewport_ok
  [("Home Page Readability", readabilityFinding gl),
   ("AI Tone of Voice", toneFinding tfp),
   ("Service-in-City Pages", sicFinding sig.sic),
   ("FAQ Depth", faqFinding sig.faq_qs),
   ("Testimonials & Case Studies", testiFinding sig.testi_hits),
   ("Comparison Table", compareFinding has_compare),
   ("Pricing Transparency", pricingFinding has_pricing),
   ("Local & Directory Profiles", localDirFinding),
   ("Reviews Quantity & Rating", reviewsFinding),
   ("Press / Best Of Mentions", pressFinding),
   ("Technical Markup (Schema)", schemaFinding),
   ("Mobile UX & Speed", mobileFinding mobile_pass)]

/-- The `_get_soup` helper (aeo_logic.py lines 97-102), restricted to its
control flow: a missing or empty (falsy) href is skipped at line 98; any other
href is joined against the base URL by the urljoin collaborator at line 100,
which sits outside any try/except, so a raising join aborts the audit.  The
fetched page's content itself reaches the extractors through `Signals`. -/
def _get_soup_join (url : String) (uj : String → String → Except String String)
    (rel : Option String) : Except String Unit :=
  match rel with
  | none => Except.ok ()
  | some r => if r = "" then Except.ok () else (uj url r).map (fun _ => ())

/-- The full `run_audit` pipeline (aeo_logic.py lines 80-277) including the
page-discovery phase of lines 85-109: the six candidate pages are located from
the home page's anchors (`_find_link_like`, lines 90-95) and each located href
passes through `urljoin` at line 100 via `_get_soup_join`; a ValueError raised
there escapes `run_audit`, modelled by the propagated `Except.error`.  When
every join passes, the audit proceeds to the signal-and-findings phase
(`run_audit` above).  Line 85's reassignment `url = _norm_url(url)` is written
inline at each join. -/
def run_audit_fetch (url : String) (local_mode : Bool) (anchors : List Anchor)
    (uj : String → String → Except String String) (sig : Signals) :
    Except String (List (String × Finding)) :=
  match _get_soup_join (_norm_url url) uj (_find_link_like anchors ["about"]) with
  | Except.error e => Except.error e
  | Except.ok _ =>
  match _get_soup_join (_norm_url url) uj (_find_link_like anchors ["services", "service"]) with
  | Except.error e => Except.error e
  | Except.ok _ =>
  match _get_soup_join (_norm_url url) uj (_find_link_like anchors ["faq", "frequently"]) with
  | Except.error e => Except.error e
  | Except.ok _ =>
  match _get_soup_join (_norm_url url) uj (_find_link_like anchors ["pricing", "prices", "rates"]) with
  | Except.error e => Except.error e
  | Except.ok _ =>
  match _get_soup_join (_norm_url url) uj (_find_link_like anchors ["testimonials", "reviews"]) with
  | Except.error e => Except.error e
  | Except.ok _ =>
  match _get_soup_join (_norm_url url) uj (_find_link_like anchors ["compare", "comparison"]) with
  | Except.error e => Except.error e
  | Except.ok _ => Except.ok (run_audit url local_mode sig)

/-! ## Scorer (`aeo_logic.py` lines 400-403 and part_000 lines 191-198) -/

/-- `SCORE_MAP` icon points with `.get(..., 0)` default (aeo_logic.py line 400;
identical to `_SCORE_MAP` of part_000 line 191). -/
def SCORE_MAP (icon : String) : ℕ :=
  if icon = "🟢" then 2 else if icon = "🟡" then 1 else 0

/-- `total` at line 401: sum of points over the findings map's values. -/
def scoreTotal (audit_data : List (String × Finding)) : ℕ :=
  (audit_data.map (fun e => SCORE_MAP e.2.icon)).sum

/-- `max_total` at line 402: `2 * len(audit_data) if audit_data else 1`. -/
def max_total (audit_data : List (String × Finding)) : ℕ :=
  if audit_data.isEmpty then 1 else 2 * audit_data.length

/-- `score_pct` at line 403: `int(round((total / float(max_total)) * 100))`. -/
def score_pct (audit_data : List (String × Finding)) : ℤ :=
  pyRound ((scoreTotal audit_data : ℚ) / (max_total audit_data) * 100)

/-- `_overall_score` (part_000 lines 193-198): `0` on an empty map, else
`int(round((total / max_total) * 100))` with `max_total = 2 * len`. -/
def _overall_score (audit_data : List (String × Finding)) : ℤ :=
  if audit_data.isEmpty then 0
  else pyRound ((scoreTotal audit_data : ℚ) / (2 * audit_data.length) * 100)

/-! ## Impact/ROI projector (`aeo_logic.py` lines 444-471) -/

/-- The static `IMPACT` weight table (lines 444-457) with the
`IMPACT.get(area, ("Low", 0.05))` default of line 465. -/
def IMPACT (area : String) : String × ℚ :=
  if area = "Service-in-City Pages" then ("High", 40/100)
  else if area = "Testimonials & Case Studies" then ("Medium", 25/100)
  else if area = "FAQ Depth" then ("Medium", 20/100)
  else if area = "Comparison Table" then ("Medium", 20/100)
  else if area = "AI Tone of Voice" then ("Medium", 15/100)
  else if area = "Home Page Readability" then ("Medium", 15/100)
  else if area = "Pricing Transparency" then ("Low", 10/100)
  else if area = "Local & Directory Profiles" then ("Low", 10/100)
  else if area = "Reviews Quantity & Rating" then ("Low", 10/100)
  else if area = "Press / Best Of Mentions" then ("Low", 10/100)
  else if area = "Technical Markup (Schema)" then ("Low", 10/100)
  else if area = "Mobile UX & Speed" then ("Low", 10/100)
  else ("Low", 5/100)

/-- Line 459: `base_conv_rate = max(0.0, float(baseline_conv_pct) / 100.0)`. -/
def base_conv_rate (baseline_conv_pct : ℚ) : ℚ := max 0 (baseline_conv_pct / 100)

/-- Line 460: `base_conversions = monthly_visitors * base_conv_rate`.  Note the
visitor count is not clamped here. -/
def base_conversions (monthly_visitors baseline_conv_pct : ℚ) : ℚ :=
  monthly_visitors * base_conv_rate baseline_conv_pct

/-- One row of the projected-ROI table (lines 462-469), carrying the numeric
values before display formatting. -/
structure RoiRow where
  area : String
  pri : String
  imp : ℚ
  added_conversions : ℚ
  projected_dollars : ℚ
deriving DecidableEq

/-- The ROI rows built by the loop at lines 464-469: for each category whose
icon is not `🟢`, `added_conversions = base_conversions * imp` and
`projected_dollars = added_conversions * max(0, avg_sale_value)`. -/
def roiRows (audit_data : List (String × Finding))
    (avg_sale_value baseline_conv_pct monthly_visitors : ℚ) : List RoiRow :=
  audit_data.filterMap (fun e =>
    let pi := IMPACT e.1
    if e.2.icon ≠ "🟢" then
      let added_conversions := base_conversions monthly_visitors baseline_conv_pct * pi.2
      let projected_dollars := added_conversions * max 0 avg_sale_value
      some ⟨e.1, pi.1, pi.2, added_conversions, projected_dollars⟩
    else none)

/-! ## Baseline catalogue, dual mode (part_000 lines 227-342, "v3") -/

/-- `run_audit` of the v3 revision (part_000 lines 227-342): the fixed baseline
catalogue, with `local_mode` substituting locality-specific example strings
into the prose fields. -/
def run_audit_v3 (local_mode : Bool) : List (String × Finding) :=
  let geo_example := if local_mode then "Mechanic in Upwey" else "Best [Service] in [City]"
  let dir_examples := if local_mode then "Google Business Profile, Bing Places, Yellow Pages AU"
    else "Google Business Profile, Bing Places, industry directories"
  let review_focus := if local_mode then "Google & Yelp AU (and ProductReview.com.au)"
    else "Google, Yelp, niche review sites"
  let press_note := if local_mode then "local ‘Best Of’ lists, community news, and suburb blogs"
    else "regional ‘Best Of’ lists and industry roundups"
  [("Home Page Readability",
    ⟨"🟡", "Average clarity", "Tighten copy and reduce sentence length",
     "AI answers prefer concise, plain‑language summaries they can quote quickly.",
     "Target a ~7th‑grade reading level, shorten sentences, and surface 3–5 bullet benefits above the fold.",
     "Rewrite hero section in 5 bullet points and 2 short sentences."⟩),
   ("AI Tone of Voice",
    ⟨"🟡", "Mixed (first‑person + promo)", "Rewrite in third‑person expert voice",
     "Neutral, expert tone increases trust and likelihood of being cited by AI systems.",
     "Rewrite key pages as if an independent expert is recommending you; avoid hype.",
     "Rewrite About + Services first to third‑person expert tone."⟩),
   ("Service‑in‑City Pages",
    ⟨"🔴", "Missing dedicated pages",
     "Create location pages (e.g., ‘" ++ geo_example ++ "’)",
     "Dedicated service+city pages feed AI with precise local answers and intent signals.",
     "For each suburb/city: 2 short paragraphs, 1 local testimonial, contact CTA, and LocalBusiness + FAQ schema.",
     "Draft 3 priority suburb pages and add to nav/footer sitemap."⟩),
   ("FAQ Depth",
    ⟨"🟡", "A few basic FAQs", "Add 5–10 buyer FAQs with concise answers",
     "Q&A blocks map directly to how users ask AI and power rich answers.",
     "Add specific pricing, turnaround, warranty, and service‑area FAQs with 1–3 sentence answers; add FAQPage schema.",
     "Add 5 FAQs to top 2 service pages this week."⟩),
   ("Testimonials & Case Studies",
    ⟨"🔴", "Weak social proof", "Create testimonials page and 1–2 case studies",
     "Social proof is a strong recommendation signal for AI and a conversion driver for humans.",
     "Collect 6–10 quotes with names/suburbs; add a ‘Results’ story with before/after and photo if possible.",
     "Email last 10 customers for a 2‑line quote and star rating."⟩),
   ("Comparison Table",
    ⟨"🔴", "No competitor comparison", "Add a simple comparison table (You vs 3 competitors)",
     "Side‑by‑side comparisons are frequently quoted in AI overviews for ‘X vs Y’ queries.",
     "4 columns: You vs 3 competitors; rows: features, warranty, response time, price band, reviews.",
     "Draft a 5‑row table and publish under /compare."⟩),
   ("Pricing Transparency",
    ⟨"🟡", "‘Contact us’ only", "Add ‘from’ pricing or ranges",
     "Price signals help AI route high‑intent users and reduce friction.",
     "Publish ‘from’ pricing or typical ranges with inclusions/exclusions; link to a pricing explainer.",
     "Add a ‘Pricing’ section with 3 tiers today."⟩),
   ("Local & Directory Profiles",
    ⟨"🟡", "Partially completed profiles",
     "Complete " ++ dir_examples ++ " and keep NAP consistent",
     "Consistent profiles and citations strengthen local entity understanding for AI and maps.",
     "Ensure name‑address‑phone matches everywhere; add categories, services, photos, hours.",
     "Verify/complete Google Business Profile and add 5 photos."⟩),
   ("Reviews Quantity & Rating",
    ⟨"🟡", "Low review volume",
     "Increase " ++ review_focus ++ "; ask after completed jobs",
     "Review volume and recency heavily influence AI recommendations.",
     "Automate review requests by SMS/email post‑job; showcase rating on site with Review schema.",
     "Send a review request to last 20 customers."⟩),
   ("Press / ‘Best Of’ Mentions",
    ⟨"🔴", "No third‑party mentions",
     "Pitch inclusion in " ++ press_note,
     "Third‑party mentions validate authority; AI tools lean on them to avoid bias.",
     "Pitch local bloggers/journalists; publish a ‘Best of [Category] in [City]’ round‑up with transparent criteria.",
     "Write a press release about a customer win or new service launch."⟩),
   ("Technical Markup (Schema)",
    ⟨"🟡", "Partial schema present", "Add/validate LocalBusiness, FAQPage, Review schema",
     "Structured data helps AI understand entities, services, and proof.",
     "Use JSON‑LD; test in Rich Results & Schema validators; add sameAs links to major profiles.",
     "Add FAQPage schema to top service page."⟩),
   ("Mobile UX & Speed",
    ⟨"🟢", "Passable mobile UX", "Tidy tap targets; keep CLS/LCP in check",
     "Most AI‑driven searches happen on mobile; poor UX kills conversions.",
     "Ensure click‑to‑call/WhatsApp are 1‑tap; compress images; lazy‑load below the fold.",
     "Compress hero images and verify LCP < 2.5s."⟩)]

/-! ## Spec-side tone classifier (for comparison only) -/

/-- The three tone classes described by the spec. -/
inductive ToneClass
  | first
  | third
  | mixed
deriving DecidableEq

/-- The spec's third-person single-word markers. -/
def THIRD_PERSON_WORDS : List String := ["they", "their"]

/-- Follows the spec's words (tone classifier, §4.3): the count of first-person
markers `we, our, us, i, my` by word boundary.  Stated only to compare the
spec's count-based classifier with the source's presence-only check. -/
def specFirstPersonCount (text : String) : ℕ :=
  ((wordsOf (lowerStr text)).filter (fun w => FIRST_PERSON_MARKERS.contains w)).length

/-- Follows the spec's words (tone classifier, §4.3): the count of third-person
markers `they, their, the company, the team` by word boundary. -/
def specThirdPersonCount (text : String) : ℕ :=
  ((wordsOf (lowerStr text)).filter (fun w => THIRD_PERSON_WORDS.contains w)).length
    + countAdjacentPair "the" "company" (wordsOf (lowerStr text))
    + countAdjacentPair "the" "team" (wordsOf (lowerStr text))

/-- Follows the spec's words (tone classifier, §4.3): `third` if
third-count > first-count, `first` if first-count > third-count, else
`mixed`. -/
def specToneClassify (text : String) : ToneClass :=
  if specFirstPersonCount text < specThirdPersonCount text then ToneClass.third
  else if specThirdPersonCount text < specFirstPersonCount text then ToneClass.first
  else ToneClass.mixed

/-! ## Concrete inputs used by counterexamples and witnesses -/

/-- 37 words of one vowel run each, one sentence mark: its computed grade is
10.64, rounded to 10.6, which lies strictly between 10 and 11. -/
def demoText : String :=
  "ba ba ba ba ba ba ba ba ba ba ba ba ba ba ba ba ba ba ba ba ba ba ba ba ba ba ba ba ba ba ba ba ba ba ba ba ba."

/-- A one-category map whose single category is `Service-in-City Pages` with a
`POOR` verdict (`sicFinding false` has icon `🔴`); its impact weight is 0.40. -/
def demoMap : List (String × Finding) := [("Service-in-City Pages", sicFinding false)]

/-- A home page carrying the single anchor `<a href="//[">about us</a>`: the
first about-like link, whose href makes line 100's urljoin raise. -/
def demoAnchors : List Anchor := [⟨"//[", "about us"⟩]

/-- Neutral extractor signals: empty home and compare pages, zero counts,
every auxiliary scan negative. -/
def demoSignals : Signals := ⟨⟨[], ""⟩, ⟨[], ""⟩, 0, 0, false, false, false⟩

/-! ## Lemmas: Python rounding -/

theorem pyRound_intCast (m : ℤ) : pyRound (m : ℚ) = m := by
  unfold pyRound
  rw [Int.floor_intCast, sub_self]
  norm_num

theorem le_pyRound (c : ℤ) (q : ℚ) (h : (c : ℚ) ≤ q) : c ≤ pyRound q := by
  have hc : c ≤ ⌊q⌋ := Int.le_floor.mpr h
  unfold pyRound
  split_ifs <;> omega

theorem pyRound_le (q : ℚ) (c : ℤ) (h : q ≤ (c : ℚ)) : pyRound q ≤ c := by
  have hfl : ⌊q⌋ ≤ c := by
    have h2 := Int.floor_le_floor h
    rwa [Int.floor_intCast] at h2
  have hq : (⌊q⌋ : ℚ) ≤ q := Int.floor_le q
  unfold pyRound
  split_ifs with h1 h2 h3
  · exact hfl
  · have hstrict : (⌊q⌋ : ℚ) < (c : ℚ) := by linarith
    have : ⌊q⌋ < c := by exact_mod_cast hstrict
    omega
  · exact hfl
  · have hr : (1 : ℚ)/2 ≤ q - ⌊q⌋ := not_lt.mp h1
    have hstrict : (⌊q⌋ : ℚ) < (c : ℚ) := by linarith
    have : ⌊q⌋ < c := by exact_mod_cast hstrict
    omega

theorem pyRound_hundred : pyRound (100 : ℚ) = 100 := by
  have h := pyRound_intCast 100
  simpa using h

theorem pyRound_zero : pyRound (0 : ℚ) = 0 := by
  have h := pyRound_intCast 0
  simpa using h

theorem pyRound_eq_of_lt_half (q : ℚ) (n : ℤ) (hfl : ⌊q⌋ = n) (hr : q - n < 1/2) :
    pyRound q = n := by
  unfold pyRound
  rw [hfl, if_pos hr]

/-! ## Lemmas: scorer -/

theorem SCORE_MAP_le_two (icon : String) : SCORE_MAP icon ≤ 2 := by
  unfold SCORE_MAP
  split_ifs <;> omega

theorem scoreTotal_nil : scoreTotal [] = 0 := rfl

theorem scoreTotal_cons (e : String × Finding) (t : List (String × Finding)) :
    scoreTotal (e :: t) = SCORE_MAP e.2.icon + scoreTotal t := by
  simp [scoreTotal]

theorem scoreTotal_le (d : List (String × Finding)) : scoreTotal d ≤ 2 * d.length := by
  induction d with
  | nil => simp [scoreTotal_nil]
  | cons e t ih =>
    have h := SCORE_MAP_le_two e.2.icon
    rw [scoreTotal_cons]
    simp only [List.length_cons]
    omega

theorem scoreTotal_all_good (d : List (String × Finding))
    (h : ∀ e ∈ d, e.2.icon = "🟢") : scoreTotal d = 2 * d.length := by
  induction d with
  | nil => simp [scoreTotal_nil]
  | cons e t ih =>
    have he : e.2.icon = "🟢" := h e (List.mem_cons_self e t)
    have ht := ih (fun x hx => h x (List.mem_cons_of_mem e hx))
    rw [scoreTotal_cons, he]
    have hsm : SCORE_MAP "🟢" = 2 := by decide
    rw [hsm]
    simp only [List.length_cons]
    omega

theorem scoreTotal_all_poor (d : List (String × Finding))
    (h : ∀ e ∈ d, e.2.icon = "🔴") : scoreTotal d = 0 := by
  induction d with
  | nil => simp [scoreTotal_nil]
  | cons e t ih =>
    have he : e.2.icon = "🔴" := h e (List.mem_cons_self e t)
    have ht := ih (fun x hx => h x (List.mem_cons_of_mem e hx))
    rw [scoreTotal_cons, he, ht]
    decide

theorem max_total_nil : max_total [] = 1 := rfl

theorem max_total_cons (e : String × Finding) (t : List (String × Finding)) :
    max_total (e :: t) = 2 * (e :: t).length := by
  simp [max_total]

theorem one_le_max_total (d : List (String × Finding)) : 1 ≤ max_total d := by
  cases d with
  | nil => simp [max_total_nil]
  | cons e t =>
    rw [max_total_cons]
    simp only [List.length_cons]
    omega

theorem scoreTotal_le_max_total (d : List (String × Finding)) :
    scoreTotal d ≤ max_total d := by
  cases d with
  | nil => simp [scoreTotal_nil, max_total_nil]
  | cons e t =>
    rw [max_total_cons]
    exact scoreTotal_le (e :: t)

theorem overall_score_eq_score_pct (d : List (String × Finding)) :
    _overall_score d = score_pct d := by
  cases d with
  | nil =>
    show (0 : ℤ) = pyRound ((scoreTotal [] : ℚ) / (max_total []) * 100)
    rw [scoreTotal_nil, max_total_nil]
    norm_num [pyRound_zero]
  | cons e t =>
    show pyRound _ = pyRound ((scoreTotal (e :: t) : ℚ) / (max_total (e :: t)) * 100)
    rw [max_total_cons]
    push_cast
    ring_nf

theorem score_pct_nonneg (d : List (String × Finding)) : 0 ≤ score_pct d := by
  unfold score_pct
  refine le_pyRound 0 _ ?_
  push_cast
  positivity

theorem score_pct_le_100 (d : List (String × Finding)) : score_pct d ≤ 100 := by
  unfold score_pct
  refine pyRound_le _ 100 ?_
  have hT := scoreTotal_le_max_total d
  have hM := one_le_max_total d
  have hMq : (1 : ℚ) ≤ (max_total d : ℚ) := by exact_mod_cast hM
  have hdiv : (scoreTotal d : ℚ) / (max_total d : ℚ) ≤ 1 := by
    rw [div_le_one (by linarith)]
    exact_mod_cast hT
  push_cast
  nlinarith

/-! ## Claim theorems: C1, C2, C9, C10 -/

theorem run_audit_keys (url : String) (local_mode : Bool) (sig : Signals) :
    (run_audit url local_mode sig).map Prod.fst = baselineCategories ∧
    ∀ c ∈ baselineCategories, ((run_audit url local_mode sig).map Prod.fst).count c = 1 := by
  constructor
  · rfl
  · show ∀ c ∈ baselineCategories, baselineCategories.count c = 1
    decide

theorem run_audit_fetch_ok_or_error (url : String) (local_mode : Bool)
    (anchors : List Anchor) (uj : String → String → Except String String) (sig : Signals) :
    run_audit_fetch url local_mode anchors uj sig =
        Except.ok (run_audit url local_mode sig) ∨
      ∃ e, run_audit_fetch url local_mode anchors uj sig = Except.error e := by
  unfold run_audit_fetch
  cases _get_soup_join (_norm_url url) uj (_find_link_like anchors ["about"]) with
  | error e => exact Or.inr ⟨e, rfl⟩
  | ok _ =>
  cases _get_soup_join (_norm_url url) uj (_find_link_like anchors ["services", "service"]) with
  | error e => exact Or.inr ⟨e, rfl⟩
  | ok _ =>
  cases _get_soup_join (_norm_url url) uj (_find_link_like anchors ["faq", "frequently"]) with
  | error e => exact Or.inr ⟨e, rfl⟩
  | ok _ =>
  cases _get_soup_join (_norm_url url) uj (_find_link_like anchors ["pricing", "prices", "rates"]) with
  | error e => exact Or.inr ⟨e, rfl⟩
  | ok _ =>
  cases _get_soup_join (_norm_url url) uj (_find_link_like anchors ["testimonials", "reviews"]) with
  | error e => exact Or.inr ⟨e, rfl⟩
  | ok _ =>
  cases _get_soup_join (_norm_url url) uj (_find_link_like anchors ["compare", "comparison"]) with
  | error e => exact Or.inr ⟨e, rfl⟩
  | ok _ => exact Or.inl rfl

/-- Counterexample to claim C1: `run_audit` is not raise-free.  When the
fetched home page's first about-like anchor is `<a href="//[">about us</a>`,
the href "//[" reaches `urljoin` at aeo_logic.py line 100 — outside any
try/except — and CPython's `urlsplit` raises ValueError('Invalid IPv6 URL'),
which escapes `run_audit`: on this input no category map is returned at all. -/
theorem C1_counterexample :
    run_audit_fetch "https://example.com" true demoAnchors cpythonUrljoin demoSignals =
      Except.error "Invalid IPv6 URL" ∧
    ∀ m : List (String × Finding),
      run_audit_fetch "https://example.com" true demoAnchors cpythonUrljoin demoSignals ≠
        Except.ok m := by
  refine ⟨rfl, fun m h => ?_⟩
  rw [show run_audit_fetch "https://example.com" true demoAnchors cpythonUrljoin demoSignals =
      Except.error "Invalid IPv6 URL" from rfl] at h
  exact Except.noConfusion h

/-- Claim C1 as amended: `run_audit` either raises — which happens exactly when
one of the six urljoin calls of its page-discovery phase (line 100, unguarded)
raises on a discovered href — or returns the findings map built by its
signal phase; and every map it returns contains each of the twelve
baseline-catalogue categories exactly once, in catalogue-defined order.  It is
not raise-free: a crafted home-page link such as href "//[" aborts the audit
with ValueError('Invalid IPv6 URL'). -/
theorem C1_run_audit_fetch_complete (url : String) (local_mode : Bool)
    (anchors : List Anchor) (uj : String → String → Except String String) (sig : Signals) :
    (run_audit_fetch url local_mode anchors uj sig =
        Except.ok (run_audit url local_mode sig) ∨
      ∃ e, run_audit_fetch url local_mode anchors uj sig = Except.error e) ∧
    ∀ m, run_audit_fetch url local_mode anchors uj sig = Except.ok m →
      (m.map Prod.fst = baselineCategories ∧
        ∀ c ∈ baselineCategories, (m.map Prod.fst).count c = 1) := by
  refine ⟨run_audit_fetch_ok_or_error url local_mode anchors uj sig, fun m hm => ?_⟩
  rcases run_audit_fetch_ok_or_error url local_mode anchors uj sig with hok | ⟨e, herr⟩
  · have h2 := hm.symm.trans hok
    have h3 : m = run_audit url local_mode sig := Except.ok.inj h2
    rw [h3]
    exact run_audit_keys url local_mode sig
  · rw [hm] at herr
    exact absurd herr (by simp)

/-- Witness for C1's amended theorem: a home page with no links at all makes
every join succeed, and the returned map is the complete ordered catalogue. -/
theorem C1_run_audit_fetch_complete_witness :
    run_audit_fetch "example.com" true [] cpythonUrljoin demoSignals =
      Except.ok (run_audit "example.com" true demoSignals) ∧
    ((run_audit "example.com" true demoSignals).map Prod.fst = baselineCategories ∧
      ∀ c ∈ baselineCategories,
        ((run_audit "example.com" true demoSignals).map Prod.fst).count c = 1) :=
  ⟨rfl, (C1_run_audit_fetch_complete "example.com" true [] cpythonUrljoin demoSignals).2
    (run_audit "example.com" true demoSignals) rfl⟩

/-- Claim C2: the scorer awards 2/1/0 points for good/needs-work/poor verdict
icons and computes `round(total / (2 * category_count) * 100)` on a non-empty
map; an all-good map scores 100, an all-poor map scores 0, and the empty map
scores 0 with divisor 1 instead of 0.  The v3 revision's `_overall_score`
agrees with `score_pct` everywhere. -/
theorem C2_scorer (d : List (String × Finding)) :
    (d ≠ [] → score_pct d = pyRound ((scoreTotal d : ℚ) / ((2 * d.length : ℕ) : ℚ) * 100)) ∧
    ((∀ e ∈ d, e.2.icon = "🟢") → d ≠ [] → score_pct d = 100) ∧
    ((∀ e ∈ d, e.2.icon = "🔴") → score_pct d = 0) ∧
    (d = [] → score_pct d = 0) ∧
    _overall_score d = score_pct d := by
  have hempty : score_pct ([] : List (String × Finding)) = 0 := by
    unfold score_pct
    rw [scoreTotal_nil, max_total_nil]
    norm_num [pyRound_zero]
  refine ⟨?_, ?_, ?_, ?_, overall_score_eq_score_pct d⟩
  · intro hne
    unfold score_pct max_total
    rw [if_neg (by simpa using hne)]
  · intro hgood hne
    have hT := scoreTotal_all_good d hgood
    obtain ⟨e, t, rfl⟩ : ∃ e t, d = e :: t := by
      cases d with
      | nil => exact absurd rfl hne
      | cons e t => exact ⟨e, t, rfl⟩
    unfold score_pct
    rw [max_total_cons, hT]
    have hL : (0 : ℚ) < ((2 * (e :: t).length : ℕ) : ℚ) := by
      push_cast
      simp only [List.length_cons]
      positivity
    rw [div_self (ne_of_gt hL)]
    norm_num [pyRound_hundred]
  · intro hpoor
    have hT := scoreTotal_all_poor d hpoor
    unfold score_pct
    rw [hT]
    norm_num [pyRound_zero]
  · intro hd
    rw [hd]
    exact hempty

/-- Witness for C2 at concrete maps: a one-good-category map scores 100, a
one-poor-category map scores 0, and the empty map scores 0. -/
theorem C2_scorer_witness :
    score_pct [("Mobile UX & Speed", mobileFinding true)] = 100 ∧
    score_pct [("Press / Best Of Mentions", pressFinding)] = 0 ∧
    score_pct ([] : List (String × Finding)) = 0 :=
  ⟨(C2_scorer [("Mobile UX & Speed", mobileFinding true)]).2.1 (by decide) (by decide),
   (C2_scorer [("Press / Best Of Mentions", pressFinding)]).2.2.1 (by decide),
   (C2_scorer ([] : List (String × Finding))).2.2.2.1 rfl⟩

/-- Claim C9: the verdicts `run_audit` assigns are identical between
`localMode = true` and `localMode = false`.  In `aeo_logic.py` the flag is
never read, so the whole map is identical; in the v3 catalogue revision the
flag substitutes prose only, so the (category, verdict-icon) sequences of the
two modes coincide. -/
theorem C9_local_mode_only_prose (url : String) (sig : Signals) :
    run_audit url true sig = run_audit url false sig ∧
    (run_audit_v3 true).map (fun e => (e.1, e.2.icon)) =
      (run_audit_v3 false).map (fun e => (e.1, e.2.icon)) :=
  ⟨rfl, rfl⟩

/-- Claim C10: for every category map, including maps whose verdict icons are
arbitrary strings outside the three recognized values (which score 0 points via
the `.get(..., 0)` default), the score percentage lies in [0, 100] and the
divisor is at least 1; the same bounds hold for the v3 `_overall_score`. -/
theorem C10_score_bounds (d : List (String × Finding)) :
    (0 ≤ score_pct d ∧ score_pct d ≤ 100) ∧
    (0 ≤ _overall_score d ∧ _overall_score d ≤ 100) ∧
    1 ≤ max_total d := by
  refine ⟨⟨score_pct_nonneg d, score_pct_le_100 d⟩, ?_, one_le_max_total d⟩
  rw [overall_score_eq_score_pct d]
  exact ⟨score_pct_nonneg d, score_pct_le_100 d⟩

/-! ## Lemmas: ROI projector -/

theorem filterMap_if_eq {α β : Type} (p : α → Prop) [DecidablePred p] (g : α → β)
    (l : List α) :
    l.filterMap (fun a => if p a then some (g a) else none) =
      (l.filter (fun a => decide (p a))).map g := by
  induction l with
  | nil => rfl
  | cons a t ih =>
    by_cases h : p a <;> simp [List.filterMap_cons, List.filter_cons, h, ih]

theorem IMPACT_imp_nonneg (area : String) : 0 ≤ (IMPACT area).2 := by
  unfold IMPACT
  by_cases h1 : area = "Service-in-City Pages"
  · rw [if_pos h1]; norm_num
  rw [if_neg h1]
  by_cases h2 : area = "Testimonials & Case Studies"
  · rw [if_pos h2]; norm_num
  rw [if_neg h2]
  by_cases h3 : area = "FAQ Depth"
  · rw [if_pos h3]; norm_num
  rw [if_neg h3]
  by_cases h4 : area = "Comparison Table"
  · rw [if_pos h4]; norm_num
  rw [if_neg h4]
  by_cases h5 : area = "AI Tone of Voice"
  · rw [if_pos h5]; norm_num
  rw [if_neg h5]
  by_cases h6 : area = "Home Page Readability"
  · rw [if_pos h6]; norm_num
  rw [if_neg h6]
  by_cases h7 : area = "Pricing Transparency"
  · rw [if_pos h7]; norm_num
  rw [if_neg h7]
  by_cases h8 : area = "Local & Directory Profiles"
  · rw [if_pos h8]; norm_num
  rw [if_neg h8]
  by_cases h9 : area = "Reviews Quantity & Rating"
  · rw [if_pos h9]; norm_num
  rw [if_neg h9]
  by_cases h10 : area = "Press / Best Of Mentions"
  · rw [if_pos h10]; norm_num
  rw [if_neg h10]
  by_cases h11 : area = "Technical Markup (Schema)"
  · rw [if_pos h11]; norm_num
  rw [if_neg h11]
  by_cases h12 : area = "Mobile UX & Speed"
  · rw [if_pos h12]; norm_num
  rw [if_neg h12]
  norm_num

theorem base_conversions_nonneg (vis pct : ℚ) (hvis : 0 ≤ vis) :
    0 ≤ base_conversions vis pct :=
  mul_nonneg hvis (le_max_left 0 _)

theorem roiRows_eq (d : List (String × Finding)) (avg pct vis : ℚ)
    (havg : 0 ≤ avg) (hpct : 0 ≤ pct) :
    roiRows d avg pct vis =
      (d.filter (fun e => decide (e.2.icon ≠ "🟢"))).map (fun e =>
        (⟨e.1, (IMPACT e.1).1, (IMPACT e.1).2,
          vis * (pct / 100) * (IMPACT e.1).2,
          vis * (pct / 100) * (IMPACT e.1).2 * avg⟩ : RoiRow)) := by
  have hrate : max (0 : ℚ) (pct / 100) = pct / 100 := max_eq_right (by positivity)
  have havg' : max (0 : ℚ) avg = avg := max_eq_right havg
  have hbc : base_conversions vis pct = vis * (pct / 100) := by
    unfold base_conversions base_conv_rate
    rw [hrate]
  have h0 : roiRows d avg pct vis = d.filterMap (fun e =>
      if e.2.icon ≠ "🟢" then
        some (⟨e.1, (IMPACT e.1).1, (IMPACT e.1).2,
          base_conversions vis pct * (IMPACT e.1).2,
          base_conversions vis pct * (IMPACT e.1).2 * max 0 avg⟩ : RoiRow)
      else none) := rfl
  rw [h0]
  refine (filterMap_if_eq (fun e : String × Finding => e.2.icon ≠ "🟢")
      (fun e => (⟨e.1, (IMPACT e.1).1, (IMPACT e.1).2,
        base_conversions vis pct * (IMPACT e.1).2,
        base_conversions vis pct * (IMPACT e.1).2 * max 0 avg⟩ : RoiRow)) d).trans ?_
  simp only [hbc, havg']

theorem base_conversions_demo : base_conversions 300 3 = 9 := by
  unfold base_conversions base_conv_rate
  rw [max_eq_right (by norm_num : (0 : ℚ) ≤ 3 / 100)]
  norm_num

theorem roiRows_demo_eval :
    roiRows demoMap 500 3 300 =
      [⟨"Service-in-City Pages", "High", 40/100, 18/5, 1800⟩] := by
  have h0 : roiRows demoMap 500 3 300 =
      [(⟨"Service-in-City Pages", "High", 40/100,
         base_conversions 300 3 * (40/100),
         base_conversions 300 3 * (40/100) * max 0 500⟩ : RoiRow)] := rfl
  rw [h0, base_conversions_demo, max_eq_right (by norm_num : (0 : ℚ) ≤ 500)]
  norm_num [RoiRow.mk.injEq]

/-! ## Claim theorems: C3, C4 -/

/-- Claim C3: for non-negative business inputs the ROI projector emits exactly
one row per category whose verdict icon is not good, with
`added_conversions = monthly_visitors * (baseline_conv_pct/100) * impact` and
`projected_dollars = added_conversions * avg_sale_value`, defaulting unlisted
categories to `(Low, 0.05)`; and in the spec's scenario (avg 500, pct 3,
visitors 300, one poor category of weight 0.40) the base conversions are 9, the
added conversions 3.6 = 18/5, and the projected dollars 1800. -/
theorem C3_roi_projector (d : List (String × Finding)) (avg pct vis : ℚ)
    (havg : 0 ≤ avg) (hpct : 0 ≤ pct) (hvis : 0 ≤ vis) :
    (roiRows d avg pct vis =
      (d.filter (fun e => decide (e.2.icon ≠ "🟢"))).map (fun e =>
        (⟨e.1, (IMPACT e.1).1, (IMPACT e.1).2,
          vis * (pct / 100) * (IMPACT e.1).2,
          vis * (pct / 100) * (IMPACT e.1).2 * avg⟩ : RoiRow))) ∧
    IMPACT "missing category" = ("Low", 5/100) ∧
    IMPACT "Service-in-City Pages" = ("High", 40/100) ∧
    base_conversions 300 3 = 9 ∧
    roiRows demoMap 500 3 300 =
      [⟨"Service-in-City Pages", "High", 40/100, 18/5, 1800⟩] :=
  ⟨roiRows_eq d avg pct vis havg hpct, rfl, rfl, base_conversions_demo, roiRows_demo_eval⟩

/-- Witness for C3 at the spec's concrete scenario. -/
theorem C3_roi_projector_witness :
    ((0 : ℚ) ≤ 500 ∧ (0 : ℚ) ≤ 3 ∧ (0 : ℚ) ≤ 300) ∧
    base_conversions 300 3 = 9 ∧
    roiRows demoMap 500 3 300 =
      [⟨"Service-in-City Pages", "High", 40/100, 18/5, 1800⟩] :=
  ⟨⟨by norm_num, by norm_num, by norm_num⟩,
   (C3_roi_projector demoMap 500 3 300 (by norm_num) (by norm_num) (by norm_num)).2.2.2.1,
   (C3_roi_projector demoMap 500 3 300 (by norm_num) (by norm_num) (by norm_num)).2.2.2.2⟩

/-- Counterexample to claim C4: the ROI loop clamps the average sale value and
the conversion percentage but uses the monthly visitor count unclamped, so a
negative visitor count (-300) survives into the output: the single emitted row
carries added conversions -18/5 and projected dollars -1800, both negative. -/
theorem C4_counterexample :
    roiRows demoMap 500 3 (-300) =
      [⟨"Service-in-City Pages", "High", 40/100, -18/5, -1800⟩] ∧
    ((-300 : ℚ) < 0) ∧ ((-18/5 : ℚ) < 0) ∧ ((-1800 : ℚ) < 0) := by
  refine ⟨?_, by norm_num, by norm_num, by norm_num⟩
  have h0 : roiRows demoMap 500 3 (-300) =
      [(⟨"Service-in-City Pages", "High", 40/100,
         base_conversions (-300) 3 * (40/100),
         base_conversions (-300) 3 * (40/100) * max 0 500⟩ : RoiRow)] := rfl
  have hbc : base_conversions (-300) 3 = -9 := by
    unfold base_conversions base_conv_rate
    rw [max_eq_right (by norm_num : (0 : ℚ) ≤ 3 / 100)]
    norm_num
  rw [h0, hbc, max_eq_right (by norm_num : (0 : ℚ) ≤ 500)]
  norm_num [RoiRow.mk.injEq]

/-- Claim C4 as amended: of the three ROI inputs only the average sale value
and the baseline conversion percentage are clamped to zero before use; the
monthly visitor count is not.  Consequently whenever the visitor count is
non-negative — even with negative sale value or negative percentage — no
emitted added-conversions or projected-dollars figure is negative. -/
theorem C4_roi_clamp_partial (d : List (String × Finding)) (avg pct vis : ℚ)
    (hvis : 0 ≤ vis) :
    ∀ row ∈ roiRows d avg pct vis,
      0 ≤ row.added_conversions ∧ 0 ≤ row.projected_dollars := by
  intro row hrow
  unfold roiRows at hrow
  rcases List.mem_filterMap.mp hrow with ⟨e, _, hfe⟩
  by_cases he : e.2.icon ≠ "🟢"
  · rw [if_pos he] at hfe
    have hadded : 0 ≤ base_conversions vis pct * (IMPACT e.1).2 :=
      mul_nonneg (base_conversions_nonneg vis pct hvis) (IMPACT_imp_nonneg e.1)
    have hdollars : 0 ≤ base_conversions vis pct * (IMPACT e.1).2 * max 0 avg :=
      mul_nonneg hadded (le_max_left 0 avg)
    have hr := Option.some.inj hfe
    rw [← hr]
    exact ⟨hadded, hdollars⟩
  · rw [if_neg he] at hfe
    exact absurd hfe (by simp)

/-- Witness for C4's amended theorem: with 300 visitors and negative sale value
and percentage, every emitted figure is non-negative. -/
theorem C4_roi_clamp_partial_witness :
    (0 : ℚ) ≤ 300 ∧
    ∀ row ∈ roiRows demoMap (-500) (-3) 300,
      0 ≤ row.added_conversions ∧ 0 ≤ row.projected_dollars :=
  ⟨by norm_num, C4_roi_clamp_partial demoMap (-500) (-3) 300 (by norm_num)⟩

/-! ## Lemmas: reading-grade estimator -/

theorem grade_level_def (text : String) :
    _grade_level text =
      round1 (39/100 *
          (((max 1 (countRuns isWordChar text.toList) : ℕ) : ℚ) /
            ((max 1 (countChar text '.' + countChar text '!' + countChar text '?') : ℕ) : ℚ)) +
        118/10 *
          (((max 1 (countRuns isVowel text.toList) : ℕ) : ℚ) /
            ((max 1 (countRuns isWordChar text.toList) : ℕ) : ℚ)) -
        1559/100) := rfl

theorem round1_of_int_tenths (q : ℚ) (n : ℤ) (h : 10 * q = (n : ℚ)) : round1 q = q := by
  unfold round1
  rw [h, pyRound_intCast, ← h]
  ring

theorem countRunStartsAux_all_false (p : Char → Bool) :
    ∀ l : List Char, countRunStartsAux p false l = 0 → ∀ c ∈ l, p c = false := by
  intro l
  induction l with
  | nil =>
    intro _ c hc
    simp at hc
  | cons c cs ih =>
    intro h d hd
    by_cases hc : p c = true
    · rw [countRunStartsAux, hc] at h
      simp at h
    · have hcf : p c = false := by simpa using hc
      rw [countRunStartsAux, hcf] at h
      simp at h
      rcases List.mem_cons.mp hd with rfl | hd'
      · exact hcf
      · exact ih h d hd'

theorem countRunStartsAux_zero_of_all (p : Char → Bool) :
    ∀ l : List Char, (∀ c ∈ l, p c = false) → ∀ prev, countRunStartsAux p prev l = 0 := by
  intro l
  induction l with
  | nil =>
    intro _ prev
    rfl
  | cons c cs ih =>
    intro h prev
    have hc : p c = false := h c (List.mem_cons_self c cs)
    rw [countRunStartsAux, hc]
    simpa using ih (fun d hd => h d (List.mem_cons_of_mem c hd)) false

theorem isWordChar_of_isVowel (c : Char) (h : isVowel c = true) : isWordChar c = true := by
  have hv : c = 'a' ∨ c = 'e' ∨ c = 'i' ∨ c = 'o' ∨ c = 'u' ∨ c = 'y' ∨
      c = 'A' ∨ c = 'E' ∨ c = 'I' ∨ c = 'O' ∨ c = 'U' ∨ c = 'Y' := by
    simpa [isVowel, or_assoc] using h
  rcases hv with rfl|rfl|rfl|rfl|rfl|rfl|rfl|rfl|rfl|rfl|rfl|rfl <;> decide

theorem countRuns_isVowel_zero (l : List Char) (h : countRuns isWordChar l = 0) :
    countRuns isVowel l = 0 := by
  have hall := countRunStartsAux_all_false isWordChar l h
  refine countRunStartsAux_zero_of_all isVowel l ?_ false
  intro c hc
  by_cases hv : isVowel c = true
  · have hw := isWordChar_of_isVowel c hv
    rw [hall c hc] at hw
    exact absurd hw (by simp)
  · simpa using hv

theorem grade_level_degenerate_eval (t : String)
    (hs : countChar t '.' + countChar t '!' + countChar t '?' = 0)
    (hw : countRuns isWordChar t.toList = 0)
    (hy : countRuns isVowel t.toList = 0) :
    _grade_level t = -17/5 := by
  rw [grade_level_def, hs, hw, hy]
  rw [show (max 1 0 : ℕ) = 1 from rfl]
  have harg : (39 : ℚ)/100 * (((1 : ℕ) : ℚ) / ((1 : ℕ) : ℚ)) +
      118/10 * (((1 : ℕ) : ℚ) / ((1 : ℕ) : ℚ)) - 1559/100 = -17/5 := by
    push_cast
    norm_num
  rw [harg]
  exact round1_of_int_tenths (-17/5) (-34) (by norm_num)

/-! ## Claim theorems: C5 -/

/-- Counterexample to claim C5: on the empty string (which has no words and no
sentences) the estimator clamps every count up to 1 and returns -3.4 = -17/5,
not 0.0. -/
theorem C5_counterexample : _grade_level "" = -17/5 ∧ _grade_level "" ≠ 0 := by
  have h := grade_level_degenerate_eval "" rfl rfl rfl
  refine ⟨h, ?_⟩
  rw [h]
  norm_num

/-- Claim C5 as amended: the estimator is total but does not return 0.0 on
degenerate input; instead, each zero count is clamped up to 1, so any text with
no sentence punctuation and no word characters — the empty string in
particular — evaluates the formula at one word, one sentence, one syllable and
returns exactly -3.4 = -17/5. -/
theorem C5_grade_level_degenerate (t : String)
    (hs : countChar t '.' + countChar t '!' + countChar t '?' = 0)
    (hw : countRuns isWordChar t.toList = 0) :
    _grade_level t = -17/5 :=
  grade_level_degenerate_eval t hs hw (countRuns_isVowel_zero t.toList hw)

/-- Witness for C5's amended theorem at the empty string. -/
theorem C5_grade_level_degenerate_witness :
    (countChar "" '.' + countChar "" '!' + countChar "" '?' = 0) ∧
    countRuns isWordChar "".toList = 0 ∧
    _grade_level "" = -17/5 :=
  ⟨rfl, rfl, C5_grade_level_degenerate "" rfl rfl⟩

/-! ## Claim theorems: C6 -/

set_option maxRecDepth 10000 in
/-- Counterexample to claim C6: the text of 37 one-syllable words in one
sentence has computed grade 10.6, which is strictly above 10, yet the
readability category is classified needs-work (🟡), because the source's
middle band extends to grade 11, not 10. -/
theorem C6_counterexample :
    _grade_level demoText = 53/5 ∧ (10 : ℚ) < 53/5 ∧
    (readabilityFinding (_grade_level demoText)).icon = "🟡" := by
  have hs : countChar demoText '.' + countChar demoText '!' + countChar demoText '?' = 1 := by
    decide
  have hw : countRuns isWordChar demoText.toList = 37 := by decide
  have hy : countRuns isVowel demoText.toList = 37 := by decide
  have hg : _grade_level demoText = 53/5 := by
    rw [grade_level_def, hs, hw, hy]
    rw [show (max 1 1 : ℕ) = 1 from rfl, show (max 1 37 : ℕ) = 37 from rfl]
    have harg : (39 : ℚ)/100 * (((37 : ℕ) : ℚ) / ((1 : ℕ) : ℚ)) +
        118/10 * (((37 : ℕ) : ℚ) / ((37 : ℕ) : ℚ)) - 1559/100 = 266/25 := by
      push_cast
      norm_num
    rw [harg]
    unfold round1
    rw [show (10 : ℚ) * (266/25) = 532/5 from by norm_num]
    rw [pyRound_eq_of_lt_half (532/5) 106 (by norm_num [Int.floor_eq_iff]) (by norm_num)]
    norm_num
  refine ⟨hg, by norm_num, ?_⟩
  rw [hg]
  unfold readabilityFinding
  rw [if_neg (by norm_num : ¬((53 : ℚ)/5 ≤ 8)), if_pos (by norm_num : (53 : ℚ)/5 ≤ 11)]

/-- Claim C6 as amended: the readability verdict is good exactly when the grade
is at most 8, needs-work exactly when it lies in (8, 11], and poor exactly when
it is strictly above 11 — the middle band's upper bound is 11, not 10. -/
theorem C6_readability_bands (gl : ℚ) :
    ((readabilityFinding gl).icon = "🟢" ↔ gl ≤ 8) ∧
    ((readabilityFinding gl).icon = "🟡" ↔ 8 < gl ∧ gl ≤ 11) ∧
    ((readabilityFinding gl).icon = "🔴" ↔ 11 < gl) := by
  unfold readabilityFinding
  by_cases h1 : gl ≤ 8
  · rw [if_pos h1]
    exact ⟨iff_of_true rfl h1,
           iff_of_false (by simp) (fun h => absurd h1 (not_le.mpr h.1)),
           iff_of_false (by simp) (fun h => absurd h1 (by linarith))⟩
  · rw [if_neg h1]
    by_cases h2 : gl ≤ 11
    · rw [if_pos h2]
      exact ⟨iff_of_false (by simp) h1,
             iff_of_true rfl ⟨not_le.mp h1, h2⟩,
             iff_of_false (by simp) (not_lt.mpr h2)⟩
    · rw [if_neg h2]
      exact ⟨iff_of_false (by simp) h1,
             iff_of_false (by simp) (fun h => h2 h.2),
             iff_of_true rfl (not_le.mp h2)⟩

/-! ## Lemmas: tone -/

theorem tone_first_person_iff (text : String) :
    tone_first_person text = true ↔
      ∃ w ∈ wordsOf (lowerStr text), w ∈ FIRST_PERSON_MARKERS := by
  simp [tone_first_person, List.any_eq_true]

/-! ## Claim theorems: C7 -/

/-- Counterexample to claim C7: "we they" has exactly one first-person and one
third-person marker, so the spec's count-based classifier calls it mixed, and
"we we" is pure first person; yet the source's tone check — a mere presence
test for first-person markers — produces the identical first-person-heavy
(needs-work) finding for both texts.  Third-person markers are never counted. -/
theorem C7_counterexample :
    specFirstPersonCount "we they" = 1 ∧
    specThirdPersonCount "we they" = 1 ∧
    specToneClassify "we they" = ToneClass.mixed ∧
    specToneClassify "we we" = ToneClass.first ∧
    toneFinding (tone_first_person "we they") = toneFinding (tone_first_person "we we") ∧
    (toneFinding (tone_first_person "we they")).icon = "🟡" ∧
    (toneFinding (tone_first_person "we they")).result = "First-person heavy" := by
  set_option maxRecDepth 8000 in decide

/-- Claim C7 as amended: the tone detector only tests for the presence of a
first-person marker (we, our, i, my, us) at word boundaries in the lowercased
page text; any presence yields the first-person-heavy needs-work finding and
absence yields the objective good finding.  Third-person markers play no role
and there is no mixed outcome. -/
theorem C7_tone_presence_only (text : String) :
    ((toneFinding (tone_first_person text)).icon = "🟡" ↔
      ∃ w ∈ wordsOf (lowerStr text), w ∈ FIRST_PERSON_MARKERS) ∧
    ((toneFinding (tone_first_person text)).icon = "🟢" ↔
      ¬∃ w ∈ wordsOf (lowerStr text), w ∈ FIRST_PERSON_MARKERS) := by
  have key := tone_first_person_iff text
  cases h : tone_first_person text with
  | false =>
    rw [h] at key
    have hnot : ¬∃ w ∈ wordsOf (lowerStr text), w ∈ FIRST_PERSON_MARKERS := by
      simpa using key
    exact ⟨iff_of_false (by decide) hnot, iff_of_true rfl hnot⟩
  | true =>
    rw [h] at key
    have hex : ∃ w ∈ wordsOf (lowerStr text), w ∈ FIRST_PERSON_MARKERS := key.mp rfl
    exact ⟨iff_of_true rfl hex, iff_of_false (by decide) (fun hn => hn hex)⟩

/-! ## Claim theorems: C8 -/

/-- Counterexample to claim C8, in both directions.  A page holding a table
with a 4-cell row but whose text contains none of "vs", "compare",
"comparison" is still detected — the table branch needs no keyword.
Conversely, a page holding a table element (one 3-cell row) whose text is
"comparison vs" — satisfying the claim's conjunction of a table element and a
"vs"/"comparison" keyword — is NOT detected: the text branch tests the
literal "compare", which is not a substring of "comparison", and a 3-cell row
fails the table branch. -/
theorem C8_counterexample :
    _has_table_compare ⟨[[4]], ""⟩ = true ∧
    strContains (lowerStr "") "vs" = false ∧
    strContains (lowerStr "") "compare" = false ∧
    strContains (lowerStr "") "comparison" = false ∧
    _has_table_compare ⟨[[3]], "comparison vs"⟩ = false ∧
    strContains (lowerStr "comparison vs") "comparison" = true ∧
    strContains (lowerStr "comparison vs") "vs" = true ∧
    strContains (lowerStr "comparison vs") "compare" = false := by
  decide

/-- Claim C8 as amended: the detector returns true exactly when some table row
has at least 4 cells, or the lowercased page text contains the literal
"compare" together with at least one of "vs", "pros", "cons".  Neither branch
requires the other, and the keyword "comparison" is never tested: "compare" is
not a substring of "comparison", so text mentioning only "comparison" cannot
satisfy the text branch. -/
theorem C8_table_compare_iff (s : Soup) :
    (_has_table_compare s = true ↔
      ((∃ rows ∈ s.tables, ∃ cols ∈ rows, 4 ≤ cols) ∨
        (strContains (lowerStr s.text) "compare" = true ∧
          (strContains (lowerStr s.text) "vs" = true ∨
            strContains (lowerStr s.text) "pros" = true ∨
            strContains (lowerStr s.text) "cons" = true)))) ∧
    strContains (lowerStr "comparison") "compare" = false := by
  refine ⟨?_, by decide⟩
  have hform : _has_table_compare s =
      (if s.tables.any (fun rows => rows.any (fun cols => decide (4 ≤ cols))) then true
       else if strContains (lowerStr s.text) "compare" &&
          (strContains (lowerStr s.text) "vs" || strContains (lowerStr s.text) "pros" ||
            strContains (lowerStr s.text) "cons") then true
       else false) := rfl
  rw [hform]
  split_ifs with h1 h2
  · refine iff_of_true rfl (Or.inl ?_)
    simpa [List.any_eq_true] using h1
  · refine iff_of_true rfl (Or.inr ?_)
    simpa [Bool.and_eq_true, Bool.or_eq_true, or_assoc] using h2
  · refine iff_of_false (by simp) ?_
    rintro (ha | hb)
    · exact h1 (by simpa [List.any_eq_true] using ha)
    · exact h2 (by simpa [Bool.and_eq_true, Bool.or_eq_true, or_assoc] using hb)

end AeoAudit
